import Mathlib

/-!
Verification of the Tivaan Vision front-end orchestration layer
(`static/js/app.js`).  The JavaScript click-handler pipeline is shallowly
embedded: JS values produced by `JSON.parse` become the inductive `JsVal`,
the two network calls become oracles supplied in a `RunEnv`, and the click
handler attached by `attachDetectHandlers` becomes the pure function
`runClick` that returns the final UI state, the ordered list of network
events, and instrumented snapshots of the trigger's `disabled` flag at
the suspension points.
-/

namespace TivaanVision

/-- A JavaScript value as producible by `JSON.parse`: `null`, booleans,
numbers (idealised as rationals), strings, arrays and objects.  `undefined`
is represented at use sites by `Option.none`. -/
inductive JsVal where
  | null : JsVal
  | bool (b : Bool) : JsVal
  | num (q : ℚ) : JsVal
  | str (s : String) : JsVal
  | arr (elems : List JsVal) : JsVal
  | obj (fields : List (String × JsVal)) : JsVal

/-- JS truthiness: `null`, `false`, `0` and the empty string are falsy;
arrays and objects are always truthy. -/
def truthy : JsVal → Bool
  | JsVal.null => false
  | JsVal.bool b => b
  | JsVal.num q => if q = 0 then false else true
  | JsVal.str s => if s = "" then false else true
  | JsVal.arr _ => true
  | JsVal.obj _ => true

/-- Whether a value is exactly JS `null` (the `count !== null` test). -/
def isNull : JsVal → Bool
  | JsVal.null => true
  | _ => false

/-- Property access `v.k` on a non-null value: own properties of objects,
`undefined` (none) on primitives and arrays.  Access on `null` throws and
is handled at the call site in `runPresent`. -/
def getProp : JsVal → String → Option JsVal
  | JsVal.obj fields, k => fields.lookup k
  | _, _ => none

/-- The chain `j.k1 || j.k2 || ... || null` from app.js lines 172 and 174:
the first alias whose value is truthy wins; a present but falsy value is
skipped by the JS logical-or. -/
def resolveOr (j : JsVal) : List String → JsVal
  | [] => JsVal.null
  | k :: ks =>
    match getProp j k with
    | some v => if truthy v then v else resolveOr j ks
    | none => resolveOr j ks

/-- The chain `j.k1 ?? j.k2 ?? ... ?? null` from app.js line 173: the first
alias whose value is neither `undefined` nor `null` wins; falsy values such
as `0` or `""` do win under nullish coalescing. -/
def resolveNullish (j : JsVal) : List String → JsVal
  | [] => JsVal.null
  | k :: ks =>
    match getProp j k with
    | some JsVal.null => resolveNullish j ks
    | some v => v
    | none => resolveNullish j ks

/-- `json.output_image || json.annotated || json.image || null` (line 172). -/
def extractOutImg (j : JsVal) : JsVal :=
  resolveOr j ["output_image", "annotated", "image"]

/-- `json.vehicle_count ?? json.count ?? json.vehicles ?? null` (line 173). -/
def extractCount (j : JsVal) : JsVal :=
  resolveNullish j ["vehicle_count", "count", "vehicles"]

/-- `json.risk_level || json.risk || null` (line 174). -/
def extractRisk (j : JsVal) : JsVal :=
  resolveOr j ["risk_level", "risk"]

/-- `Math.round`: round half toward positive infinity. -/
def jsRound (q : ℚ) : Int := ⌊q + 1 / 2⌋

/-- Value of a nonempty all-digit character list, `none` otherwise. -/
def digitsVal (cs : List Char) : Option Nat :=
  match cs with
  | [] => none
  | _ =>
    cs.foldl
      (fun acc c =>
        match acc with
        | none => none
        | some n => if c.isDigit then some (n * 10 + (c.toNat - 48)) else none)
      (some 0)

/-- JS `Number(string)`, restricted to the optionally signed decimal-integer
fragment of the JS numeric grammar ("" coerces to 0); fractional, exponent,
hexadecimal and whitespace-padded forms are mapped to NaN (`none`). -/
def jsStrToNum (s : String) : Option ℚ :=
  match s.data with
  | [] => some 0
  | '-' :: rest => (digitsVal rest).map (fun n => -(n : ℚ))
  | '+' :: rest => (digitsVal rest).map (fun n => (n : ℚ))
  | cs => (digitsVal cs).map (fun n => (n : ℚ))

/-- JS `ToNumber` coercion as applied by `count*2.0`; `none` is NaN.
Array coercion (via string joining) is not tracked and is mapped to NaN. -/
def jsToNumQ : JsVal → Option ℚ
  | JsVal.null => some 0
  | JsVal.bool b => some (if b then 1 else 0)
  | JsVal.num q => some q
  | JsVal.str s => jsStrToNum s
  | JsVal.arr _ => none
  | JsVal.obj _ => none

/-- `Math.max(5, Math.round(140 - count*2.0))` (line 192); `none` is NaN,
which propagates through round and max. -/
def jsDistance (count : JsVal) : Option Int :=
  (jsToNumQ count).map (fun n => max 5 (jsRound (140 - n * 2)))

/-- Outcome of reading a `fetch` response body. -/
inductive BodyOutcome where
  | textError : BodyOutcome
  | notJson : BodyOutcome
  | parsed (j : JsVal) : BodyOutcome

/-- Outcome of one `fetch` call: rejection, or a response with a status
code and a body. -/
inductive FetchOutcome where
  | netError : FetchOutcome
  | resp (status : Nat) (body : BodyOutcome) : FetchOutcome

/-- `Response.ok`: status in the 200..299 range. -/
def isOk (s : Nat) : Bool := 200 ≤ s && s < 300

/-- The exception value caught by a `catch` block, by provenance. -/
inductive JsErr where
  | fetchFailed : JsErr
  | bodyReadFailed : JsErr
  | jsonParseFailed : JsErr
  deriving DecidableEq

/-- What `callIot` wrote to the console. -/
inductive IotLog where
  | silent : IotLog
  | warnNonOk (code : Nat) : IotLog
  | errorCaught (e : JsErr) : IotLog
  deriving DecidableEq

/-- `callIot` (app.js lines 56-72): POST to `/api/iot`; returns `null` on a
rejected fetch (logged as an error), on a non-ok status (logged as a warning
with the code), and on an unreadable or unparseable body (logged as an
error); otherwise returns the parsed body.  The pair is (returned value,
console effect). -/
def callIot : FetchOutcome → JsVal × IotLog
  | FetchOutcome.netError => (JsVal.null, IotLog.errorCaught JsErr.fetchFailed)
  | FetchOutcome.resp s body =>
    if isOk s then
      match body with
      | BodyOutcome.textError => (JsVal.null, IotLog.errorCaught JsErr.bodyReadFailed)
      | BodyOutcome.notJson => (JsVal.null, IotLog.errorCaught JsErr.jsonParseFailed)
      | BodyOutcome.parsed j => (j, IotLog.silent)
    else (JsVal.null, IotLog.warnNonOk s)

/-- The elements a binding closure captured at attach time (lines 96-111):
whether a file input was found and has a file selected at click time, and
which optional output slots exist.  A status element always exists (one is
created when missing). -/
structure Binding where
  hasFileInput : Bool
  fileSelected : Bool
  hasPreview : Bool
  hasAnnotated : Bool
  hasMeta : Bool
  hasIot : Bool

/-- The distinct messages written to the status element. -/
inductive StatusMsg where
  | idle : StatusMsg
  | processing : StatusMsg
  | chooseFile : StatusMsg
  | networkError : StatusMsg
  | serverError (code : Nat) : StatusMsg
  | invalidResponse : StatusMsg
  | detectionCompleted : StatusMsg
  deriving DecidableEq

/-- What the sensor-output slot shows after the IoT step: the three fields
read off the response (property access on non-objects yields `undefined`),
or the failure placeholder text. -/
inductive IotRender where
  | success (distance alert action : Option JsVal) : IotRender
  | failed : IotRender

/-- The page state touched by one binding's run. -/
structure UIState where
  status : StatusMsg
  disabled : Bool
  previewShown : Bool
  annotated : Option JsVal
  meta : Option (JsVal × JsVal)
  iot : Option IotRender
  thumbsRefreshed : Bool

/-- Network events of one run, in issue order. -/
inductive NetEvent where
  | detectRequest : NetEvent
  | detectParsed : NetEvent
  | iotRequest (distance : Option Int) : NetEvent

/-- How the handler invocation ended. -/
inductive RunExit where
  | earlyNoFile : RunExit
  | errorExit : RunExit
  | crashed : RunExit
  | completed : RunExit
  deriving DecidableEq

/-- Oracles for the effects one run performs. -/
structure RunEnv where
  detectResult : FetchOutcome
  iotResult : FetchOutcome
  previewOk : Bool

/-- Result of one handler invocation: final UI state, ordered network
events, the exit kind, and snapshots of the trigger's `disabled` flag taken
at the file-existence check (line 119) and at the moments the detect and
iot requests are issued (lines 145 and 193). -/
structure RunResult where
  ui : UIState
  events : List NetEvent
  exit : RunExit
  disabledAtFileCheck : Bool
  disabledAtDetectRequest : Option Bool
  disabledAtIotRequest : Option Bool

/-- The guard of line 119: no file input located, or no file chosen. -/
def fileMissing (b : Binding) : Bool := !(b.hasFileInput && b.fileSelected)

/-- Shared shape of the three early error returns of the detect phase
(lines 146-151, 156-161, 163-167): status message written, trigger
re-enabled, run ends. -/
def errorResult (ui : UIState) (dChk : Bool) (m : StatusMsg) : RunResult :=
  { ui := { ui with status := m, disabled := false }
    events := [NetEvent.detectRequest]
    exit := RunExit.errorExit
    disabledAtFileCheck := dChk
    disabledAtDetectRequest := some ui.disabled
    disabledAtIotRequest := none }

/-- Lines 176-188: the presentation step after a non-null parse.  Status
set to the success indicator; the metadata slot, when it exists, shows the
resolved count and risk; the annotated slot, when it exists, shows a
truthy image reference or is hidden. -/
def presentUI (b : Binding) (ui : UIState) (j : JsVal) : UIState :=
  { ui with
    status := StatusMsg.detectionCompleted
    meta := if b.hasMeta then some (extractCount j, extractRisk j) else ui.meta
    annotated :=
      if b.hasAnnotated then
        (if truthy (extractOutImg j) then some (extractOutImg j) else none)
      else ui.annotated }

/-- Lines 194-198: what the sensor-output slot renders from the value
`callIot` returned; `if (iotResp)` is a truthiness test, so a falsy return
(always `null` on failure) renders the failure placeholder. -/
def iotRenderOf (v : JsVal) : IotRender :=
  if truthy v then
    IotRender.success (getProp v "distance") (getProp v "alert")
      (getProp v "recommended_action")
  else IotRender.failed

/-- Lines 170-204: the response is parsed.  Accessing `json.output_image`
on a `null` body throws an uncaught TypeError, aborting the handler with
the trigger still disabled.  Otherwise fields are resolved by alias, the
results presented, the IoT step run when a count is present and a slot
exists, thumbnails refreshed, and the trigger re-enabled. -/
def runPresent (b : Binding) (env : RunEnv) (ui : UIState) (dChk : Bool) (j : JsVal) :
    RunResult :=
  if isNull j then
    { ui := ui
      events := [NetEvent.detectRequest, NetEvent.detectParsed]
      exit := RunExit.crashed
      disabledAtFileCheck := dChk
      disabledAtDetectRequest := some ui.disabled
      disabledAtIotRequest := none }
  else
    let ui6 : UIState := presentUI b ui j
    if !(isNull (extractCount j)) && b.hasIot then
      { ui :=
          { ui6 with
            iot := some (iotRenderOf (callIot env.iotResult).1)
            thumbsRefreshed := true
            disabled := false }
        events :=
          [NetEvent.detectRequest, NetEvent.detectParsed,
            NetEvent.iotRequest (jsDistance (extractCount j))]
        exit := RunExit.completed
        disabledAtFileCheck := dChk
        disabledAtDetectRequest := some ui.disabled
        disabledAtIotRequest := some ui.disabled }
    else
      { ui := { ui6 with thumbsRefreshed := true, disabled := false }
        events := [NetEvent.detectRequest, NetEvent.detectParsed]
        exit := RunExit.completed
        disabledAtFileCheck := dChk
        disabledAtDetectRequest := some ui.disabled
        disabledAtIotRequest := none }

/-- Lines 143-168: the detect fetch and its three handled failure classes
(rejected fetch → network error, non-ok status → server error with the
code, body unreadable → caught by the outer catch as a network error, body
not JSON → invalid response). -/
def runDetect (b : Binding) (env : RunEnv) (ui : UIState) (dChk : Bool) : RunResult :=
  match env.detectResult with
  | FetchOutcome.netError => errorResult ui dChk StatusMsg.networkError
  | FetchOutcome.resp s body =>
    if isOk s then
      match body with
      | BodyOutcome.textError => errorResult ui dChk StatusMsg.networkError
      | BodyOutcome.notJson => errorResult ui dChk StatusMsg.invalidResponse
      | BodyOutcome.parsed j => runPresent b env ui dChk j
    else errorResult ui dChk (StatusMsg.serverError s)

/-- The click handler of lines 114-205: write the processing status, check
for a file (warn and return while the trigger keeps its prior state if
none), best-effort preview, disable the trigger, then run the detect
phase. -/
def runClick (b : Binding) (env : RunEnv) (ui0 : UIState) : RunResult :=
  let ui1 : UIState := { ui0 with status := StatusMsg.processing }
  if fileMissing b then
    { ui := { ui1 with status := StatusMsg.chooseFile }
      events := []
      exit := RunExit.earlyNoFile
      disabledAtFileCheck := ui1.disabled
      disabledAtDetectRequest := none
      disabledAtIotRequest := none }
  else
    let ui2 : UIState :=
      { ui1 with
        previewShown := if b.hasPreview && env.previewOk then true else ui1.previewShown }
    let ui3 : UIState := { ui2 with disabled := true }
    runDetect b env ui3 ui1.disabled

/-- The detect response body when the run reached a successful parse:
`some j` exactly when the fetch resolved with an ok status and a body that
`JSON.parse` accepted. -/
def detectSuccessJson (env : RunEnv) : Option JsVal :=
  match env.detectResult with
  | FetchOutcome.resp s (BodyOutcome.parsed j) => if isOk s then some j else none
  | _ => none

/-- One `.run-detect` element: its `data-tv-attached` marker and the number
of click listeners bound to it. -/
structure TvButton where
  tvAttached : Bool
  handlers : Nat
  deriving DecidableEq

/-- Lines 91-94 for one button: skip when the marker is set, otherwise set
it and add the click listener. -/
def attachOne (btn : TvButton) : TvButton :=
  if btn.tvAttached then btn else { tvAttached := true, handlers := btn.handlers + 1 }

/-- `attachDetectHandlers` (lines 85-207) restricted to its binding effect:
visit every `.run-detect` element and attach at most once. -/
def attachDetectHandlers (page : List TvButton) : List TvButton :=
  page.map attachOne

/-- `src.split("?")[0]` (line 79): the part of the URL before the first
question mark. -/
def stripQuery (s : String) : String :=
  String.mk (s.data.takeWhile (fun c => !(c = '?')))

/-- Line 80 for one thumbnail: rebuild `src` as the stripped base plus a
fresh timestamp query parameter. -/
def refreshSrc (t : Nat) (s : String) : String :=
  stripQuery s ++ "?t=" ++ toString t

/-- `refreshMetricsThumbnails` (lines 75-82): refresh each thumbnail `src`
with one shared timestamp. -/
def refreshMetricsThumbnails (t : Nat) (srcs : List String) : List String :=
  srcs.map (refreshSrc t)

/-- Modelled from the spec's words, for comparison with `resolveOr` and
`resolveNullish`: the first alias present in the response object wins,
whatever its value. -/
def resolveFirstPresent (j : JsVal) : List String → Option JsVal
  | [] => none
  | k :: ks =>
    match getProp j k with
    | some v => some v
    | none => resolveFirstPresent j ks


/-- Prepared per-run UI state after the file check passes: processing
status written, best-effort preview, trigger disabled (line 136). -/
def uiPre (b : Binding) (env : RunEnv) (ui0 : UIState) : UIState :=
  { ui0 with
    status := StatusMsg.processing
    previewShown := if b.hasPreview && env.previewOk then true else ui0.previewShown
    disabled := true }

/-- A page-initial UI state: trigger enabled, nothing rendered yet. -/
def uiInit : UIState :=
  { status := StatusMsg.idle, disabled := false, previewShown := false, annotated := none,
    meta := none, iot := none, thumbsRefreshed := false }

/-- A binding whose container has every optional element and a chosen file. -/
def bFull : Binding :=
  { hasFileInput := true, fileSelected := true, hasPreview := true, hasAnnotated := true,
    hasMeta := true, hasIot := true }

/-- The same binding with no file chosen. -/
def bNoFile : Binding := { bFull with fileSelected := false }

/-- A well-formed detection response body. -/
def jGood : JsVal :=
  JsVal.obj
    [("output_image", JsVal.str "/static/outputs/out.png"), ("vehicle_count", JsVal.num 12),
      ("risk_level", JsVal.str "high")]

/-- A well-formed sensor response body. -/
def jIotOk : JsVal :=
  JsVal.obj
    [("distance", JsVal.num 116), ("alert", JsVal.str "SAFE"),
      ("recommended_action", JsVal.str "Proceed")]

/-- Both endpoints succeed. -/
def envHappy : RunEnv :=
  { detectResult := FetchOutcome.resp 200 (BodyOutcome.parsed jGood)
    iotResult := FetchOutcome.resp 200 (BodyOutcome.parsed jIotOk)
    previewOk := true }

/-- The detection endpoint answers 200 with the body text `null`:
`JSON.parse` succeeds and yields JS `null`. -/
def envNullBody : RunEnv :=
  { detectResult := FetchOutcome.resp 200 (BodyOutcome.parsed JsVal.null)
    iotResult := FetchOutcome.resp 200 (BodyOutcome.parsed jIotOk)
    previewOk := true }

/-- Detection succeeds, the sensor fetch is rejected. -/
def envIotDown : RunEnv :=
  { detectResult := FetchOutcome.resp 200 (BodyOutcome.parsed jGood)
    iotResult := FetchOutcome.netError
    previewOk := true }

/-- Detection succeeds, the sensor endpoint answers 500. -/
def envIot500 : RunEnv :=
  { detectResult := FetchOutcome.resp 200 (BodyOutcome.parsed jGood)
    iotResult := FetchOutcome.resp 500 BodyOutcome.notJson
    previewOk := true }

/-- A response whose first image alias is present but empty. -/
def jFalsyImg : JsVal :=
  JsVal.obj [("output_image", JsVal.str ""), ("annotated", JsVal.str "x")]

/-- A response exercising alias priority. -/
def jAliased : JsVal :=
  JsVal.obj
    [("vehicle_count", JsVal.num 7), ("count", JsVal.num 9),
      ("output_image", JsVal.str "a.png"), ("risk_level", JsVal.str "low")]

theorem isNull_true_iff (v : JsVal) : isNull v = true ↔ v = JsVal.null := by
  cases v <;> simp [isNull]

theorem isNull_false_iff (v : JsVal) : isNull v = false ↔ v ≠ JsVal.null := by
  cases v <;> simp [isNull]

theorem extractCount_null : extractCount JsVal.null = JsVal.null := rfl

theorem takeWhile_strip_append (l m : List Char) :
    ((l.takeWhile (fun c => !(c = '?'))) ++ '?' :: m).takeWhile (fun c => !(c = '?'))
      = l.takeWhile (fun c => !(c = '?')) := by
  have hp : ∀ a ∈ l.takeWhile (fun c => !(c = '?')), (fun c => !(c = '?')) a = true :=
    fun a ha => @List.mem_takeWhile_imp Char (fun c => !(c = '?')) l a ha
  rw [List.takeWhile_append_of_pos hp]
  simp [List.takeWhile_cons]

theorem data_of_refreshSrc (t : Nat) (s : String) :
    (refreshSrc t s).data
      = s.data.takeWhile (fun c => !(c = '?')) ++ '?' :: 't' :: '=' :: (toString t).data := by
  simp [refreshSrc, stripQuery, String.data_append]

theorem stripQuery_refreshSrc (t : Nat) (s : String) :
    stripQuery (refreshSrc t s) = stripQuery s := by
  show String.mk ((refreshSrc t s).data.takeWhile (fun c => !(c = '?')))
      = String.mk (s.data.takeWhile (fun c => !(c = '?')))
  rw [data_of_refreshSrc, takeWhile_strip_append]

/-- C10: for every metrics thumbnail, the refresh sets `src` to the part of
the current `src` before any question mark followed by a single fresh
timestamp parameter, so repeated refreshes keep the same base URL and never
accumulate query parameters: a refresh composed with a refresh equals the
later refresh alone. -/
theorem c10_refresh_base_stable (t u : Nat) (s : String) :
    refreshSrc t s = stripQuery s ++ "?t=" ++ toString t ∧
    stripQuery (refreshSrc t s) = stripQuery s ∧
    refreshSrc u (refreshSrc t s) = refreshSrc u s ∧
    ∀ srcs : List String,
      refreshMetricsThumbnails u (refreshMetricsThumbnails t srcs)
        = refreshMetricsThumbnails u srcs := by
  refine ⟨rfl, stripQuery_refreshSrc t s, ?_, ?_⟩
  · show stripQuery (refreshSrc t s) ++ "?t=" ++ toString u = refreshSrc u s
    rw [stripQuery_refreshSrc]
    rfl
  · intro srcs
    induction srcs with
    | nil => rfl
    | cons a as ih =>
      simp only [refreshMetricsThumbnails, List.map_cons] at ih ⊢
      rw [ih]
      show refreshSrc u (refreshSrc t a) :: _ = refreshSrc u a :: _
      congr 1
      show stripQuery (refreshSrc t a) ++ "?t=" ++ toString u = refreshSrc u a
      rw [stripQuery_refreshSrc]
      rfl

theorem attachOne_idem (btn : TvButton) : attachOne (attachOne btn) = attachOne btn := by
  by_cases h : btn.tvAttached <;> simp [attachOne, h]

theorem attachOne_handlers (btn : TvButton) :
    (attachOne btn).handlers = if btn.tvAttached then btn.handlers else btn.handlers + 1 := by
  by_cases h : btn.tvAttached <;> simp [attachOne, h]

theorem attachDetectHandlers_idem (page : List TvButton) :
    attachDetectHandlers (attachDetectHandlers page) = attachDetectHandlers page := by
  simp [attachDetectHandlers, List.map_map, Function.comp_def, attachOne_idem]

/-- C8: invoking the attachment routine any number of times binds each
trigger at most once: after n applications (n at least 1) the page equals a
single application, and each button has gained exactly one listener when it
was fresh and none when it was already attached. -/
theorem c8_idempotent_attachment (page : List TvButton) (n : Nat) (h : 1 ≤ n) :
    (attachDetectHandlers)^[n] page = attachDetectHandlers page ∧
    ((attachDetectHandlers)^[n] page).map TvButton.handlers
      = page.map (fun btn => if btn.tvAttached then btn.handlers else btn.handlers + 1) := by
  have hiter : ∀ m, (attachDetectHandlers)^[m + 1] page = attachDetectHandlers page := by
    intro m
    induction m with
    | zero => simp
    | succ k ih =>
      rw [Function.iterate_succ_apply', ih, attachDetectHandlers_idem]
  obtain ⟨m, rfl⟩ : ∃ m, n = m + 1 := ⟨n - 1, (Nat.sub_add_cancel h).symm⟩
  refine ⟨hiter m, ?_⟩
  rw [hiter m]
  simp [attachDetectHandlers, List.map_map, Function.comp_def, attachOne_handlers]

/-- Witness for C8 at a concrete page: two attachment passes over one fresh
button leave it with exactly one listener. -/
theorem c8_idempotent_attachment_witness :
    ((attachDetectHandlers)^[2] [TvButton.mk false 0]).map TvButton.handlers = [1] := by
  have h := c8_idempotent_attachment [TvButton.mk false 0] 2 (by decide)
  rw [h.2]
  rfl

/-- C1: the claim says every asynchronous failure of the pipeline is caught
and leaves the trigger re-enabled.  The code violates this when a success
status carries the body text null: JSON.parse succeeds, the following
property access throws an uncaught TypeError, and the run aborts with the
trigger still disabled.  This theorem evaluates the handler at that
failing input. -/
theorem c1_crash_on_null_body :
    (runClick bFull envNullBody uiInit).exit = RunExit.crashed ∧
    (runClick bFull envNullBody uiInit).ui.disabled = true ∧
    (runClick bFull envNullBody uiInit).ui.status = StatusMsg.processing ∧
    (runClick bFull envNullBody uiInit).events
      = [NetEvent.detectRequest, NetEvent.detectParsed] :=
  ⟨rfl, rfl, rfl, rfl⟩

/-- C4: for every control with no selected file, activating the trigger
issues no network request at all, ends with the choose-a-file warning in
the status element, and leaves the trigger enabled. -/
theorem c4_no_file_no_request (b : Binding) (env : RunEnv) (ui0 : UIState)
    (hfile : b.hasFileInput = false ∨ b.fileSelected = false)
    (hd : ui0.disabled = false) :
    (runClick b env ui0).events = [] ∧
    (runClick b env ui0).ui.status = StatusMsg.chooseFile ∧
    (runClick b env ui0).ui.disabled = false := by
  have hfm : fileMissing b = true := by
    rcases hfile with h | h <;> simp [fileMissing, h]
  simp [runClick, hfm, hd]

/-- Witness for C4: a binding with no file chosen, under a healthy network
environment, makes no request, warns and stays enabled. -/
theorem c4_no_file_no_request_witness :
    (runClick bNoFile envHappy uiInit).events = [] ∧
    (runClick bNoFile envHappy uiInit).ui.status = StatusMsg.chooseFile ∧
    (runClick bNoFile envHappy uiInit).ui.disabled = false :=
  c4_no_file_no_request bNoFile envHappy uiInit (Or.inr rfl) rfl


/-- C5 counterexample: the claim says the trigger is disabled upon entering
the run, before file validation occurs.  In this completed run the
instrumented snapshot shows the trigger was still enabled at the moment of
the file check; the code only disables it afterwards (line 136). -/
theorem c5_disabled_before_validation_counterexample :
    (runClick bFull envHappy uiInit).disabledAtFileCheck = false ∧
    (runClick bFull envHappy uiInit).exit = RunExit.completed :=
  ⟨rfl, rfl⟩

/-- C5 amended: on trigger activation the trigger is still in its prior
enabled state at the file check; when a file is selected it is disabled
before the detection request is issued and is still disabled whenever the
sensor request is issued; it is re-enabled when the run ends, except in the
uncaught-crash exit where it stays disabled (and in a no-file run it is
never disabled at all). -/
theorem c5_disable_window_amended (b : Binding) (env : RunEnv) (ui0 : UIState)
    (hd : ui0.disabled = false) :
    (runClick b env ui0).disabledAtFileCheck = false ∧
    (b.hasFileInput = true → b.fileSelected = true →
      (runClick b env ui0).disabledAtDetectRequest = some true) ∧
    (runClick b env ui0).disabledAtIotRequest ≠ some false ∧
    ((runClick b env ui0).exit ≠ RunExit.crashed → (runClick b env ui0).ui.disabled = false) ∧
    ((runClick b env ui0).exit = RunExit.crashed → (runClick b env ui0).ui.disabled = true) := by
  cases hfm : fileMissing b with
  | true =>
    refine ⟨by simp [runClick, hfm, hd], ?_, by simp [runClick, hfm], by simp [runClick, hfm, hd],
      by simp [runClick, hfm]⟩
    intro h1 h2
    simp [fileMissing, h1, h2] at hfm
  | false =>
    cases hdet : env.detectResult with
    | netError => simp [runClick, runDetect, errorResult, uiPre, hfm, hdet, hd]
    | resp s body =>
      cases hok : isOk s with
      | false => simp [runClick, runDetect, errorResult, uiPre, hfm, hdet, hok, hd]
      | true =>
        cases body with
        | textError => simp [runClick, runDetect, errorResult, uiPre, hfm, hdet, hok, hd]
        | notJson => simp [runClick, runDetect, errorResult, uiPre, hfm, hdet, hok, hd]
        | parsed j =>
          cases hj : isNull j with
          | true => simp [runClick, runDetect, runPresent, uiPre, hfm, hdet, hok, hj, hd]
          | false =>
            cases hc : (!(isNull (extractCount j)) && b.hasIot) with
            | true =>
              simp [runClick, runDetect, runPresent, uiPre, presentUI, hfm, hdet, hok, hj, hc, hd]
            | false =>
              simp [runClick, runDetect, runPresent, uiPre, presentUI, hfm, hdet, hok, hj, hc, hd]

/-- Witness for C5 amended: in a full run with a file selected, the trigger
is recorded disabled at both request points and the run ends re-enabled. -/
theorem c5_disable_window_amended_witness :
    (runClick bFull envHappy uiInit).disabledAtFileCheck = false ∧
    (runClick bFull envHappy uiInit).disabledAtDetectRequest = some true ∧
    (runClick bFull envHappy uiInit).ui.disabled = false := by
  have h := c5_disable_window_amended bFull envHappy uiInit rfl
  have hex : (runClick bFull envHappy uiInit).exit = RunExit.completed := rfl
  exact ⟨h.1, h.2.1 rfl rfl, h.2.2.2.1 (by rw [hex]; intro hx; exact RunExit.noConfusion hx)⟩

/-- C3 counterexample: the claim says the first present alias wins, but the
image chain uses JS logical-or: a present, empty-string output_image is
skipped and the annotated alias wins instead. -/
theorem c3_first_present_counterexample :
    resolveFirstPresent jFalsyImg ["output_image", "annotated", "image"]
      = some (JsVal.str "") ∧
    extractOutImg jFalsyImg = JsVal.str "x" ∧
    JsVal.str "x" ≠ JsVal.str "" := by
  refine ⟨rfl, rfl, fun h => ?_⟩
  injection h with h2
  exact absurd h2 (by decide)

/-- C3 amended: aliases are tried in the stated fixed priority order, but
an alias only wins when its value is eligible: non-null for the count chain
(nullish coalescing) and truthy for the image and risk chains (logical or);
the first eligible alias wins, and in particular a non-null vehicle_count
beats count. -/
theorem c3_alias_resolution_amended (j v : JsVal) :
    (getProp j "vehicle_count" = some v → v ≠ JsVal.null → extractCount j = v) ∧
    ((getProp j "vehicle_count" = none ∨ getProp j "vehicle_count" = some JsVal.null) →
      getProp j "count" = some v → v ≠ JsVal.null → extractCount j = v) ∧
    (getProp j "output_image" = some v → truthy v = true → extractOutImg j = v) ∧
    ((getProp j "output_image" = none ∨
        (∃ w, getProp j "output_image" = some w ∧ truthy w = false)) →
      getProp j "annotated" = some v → truthy v = true → extractOutImg j = v) ∧
    (getProp j "risk_level" = some v → truthy v = true → extractRisk j = v) := by
  refine ⟨?_, ?_, ?_, ?_, ?_⟩
  · intro h hv
    cases v <;> simp_all [extractCount, resolveNullish]
  · intro h0 h hv
    rcases h0 with h0 | h0 <;> cases v <;> simp_all [extractCount, resolveNullish]
  · intro h hv
    simp [extractOutImg, resolveOr, h, hv]
  · intro h0 h hv
    rcases h0 with h0 | ⟨w, hw, hwf⟩
    · simp [extractOutImg, resolveOr, h0, h, hv]
    · simp [extractOutImg, resolveOr, hw, hwf, h, hv]
  · intro h hv
    simp [extractRisk, resolveOr, h, hv]

/-- Witness for C3 amended at a response containing both count aliases and
truthy image and risk aliases. -/
theorem c3_alias_resolution_amended_witness :
    extractCount jAliased = JsVal.num 7 ∧ extractOutImg jAliased = JsVal.str "a.png" ∧
    extractRisk jAliased = JsVal.str "low" :=
  ⟨(c3_alias_resolution_amended jAliased (JsVal.num 7)).1 rfl
      (fun h => JsVal.noConfusion h),
    (c3_alias_resolution_amended jAliased (JsVal.str "a.png")).2.2.1 rfl rfl,
    (c3_alias_resolution_amended jAliased (JsVal.str "low")).2.2.2.2 rfl rfl⟩


theorem isNull_eq_false_of_count (j : JsVal) (hcount : extractCount j ≠ JsVal.null) :
    isNull j = false := by
  rw [isNull_false_iff]
  intro hjn
  rw [hjn, extractCount_null] at hcount
  exact hcount rfl

/-- C2: for every detection response whose extracted vehicle count is the
number n, the distance sent to the sensor endpoint is
max(5, round(140 - n * 2.0)); in particular 12 gives 116, 0 gives 140 and
100 gives 5 (floored). -/
theorem c2_derived_distance (b : Binding) (env : RunEnv) (ui0 : UIState)
    (s : Nat) (j : JsVal) (n : ℚ)
    (hfi : b.hasFileInput = true) (hfs : b.fileSelected = true) (hiot : b.hasIot = true)
    (hdet : env.detectResult = FetchOutcome.resp s (BodyOutcome.parsed j))
    (hok : isOk s = true) (hcount : extractCount j = JsVal.num n) :
    NetEvent.iotRequest (some (max 5 (jsRound (140 - n * 2)))) ∈ (runClick b env ui0).events ∧
    jsDistance (JsVal.num 12) = some 116 ∧
    jsDistance (JsVal.num 0) = some 140 ∧
    jsDistance (JsVal.num 100) = some 5 := by
  have hfm : fileMissing b = false := by simp [fileMissing, hfi, hfs]
  have hj : isNull j = false := by
    apply isNull_eq_false_of_count
    rw [hcount]
    exact fun hx => JsVal.noConfusion hx
  have hnc : isNull (extractCount j) = false := by rw [hcount]; rfl
  have hc : (!(isNull (extractCount j)) && b.hasIot) = true := by simp [hnc, hiot]
  refine ⟨?_, ?_, ?_, ?_⟩
  · have hnum : isNull (JsVal.num n) = false := rfl
    simp [runClick, runDetect, runPresent, uiPre, hfm, hdet, hok, hj, hcount, hnum, hiot,
      jsDistance, jsToNumQ]
  · simp only [jsDistance, jsToNumQ, Option.map, jsRound]
    norm_num
  · simp only [jsDistance, jsToNumQ, Option.map, jsRound]
    norm_num
  · simp only [jsDistance, jsToNumQ, Option.map, jsRound]
    norm_num

/-- Witness for C2: a response with vehicle_count 12 makes the run send the
sensor request with distance 116. -/
theorem c2_derived_distance_witness :
    NetEvent.iotRequest (some 116) ∈ (runClick bFull envHappy uiInit).events := by
  have h := c2_derived_distance bFull envHappy uiInit 200 jGood 12 rfl rfl rfl rfl rfl rfl
  have h1 := h.1
  rw [show (some (max 5 (jsRound (140 - (12 : ℚ) * 2))) : Option Int) = some 116 from h.2.1]
    at h1
  exact h1

/-- C7: when detection succeeds and the sensor step then fails, only the
sensor-output slot shows the failure placeholder; status, metadata and
annotated keep the detection results, and the run ends in the normal
success exit with thumbnails refreshed and the trigger re-enabled. -/
theorem c7_sensor_failure_contained (b : Binding) (env : RunEnv) (ui0 : UIState)
    (s : Nat) (j : JsVal)
    (hfi : b.hasFileInput = true) (hfs : b.fileSelected = true) (hiot : b.hasIot = true)
    (hdet : env.detectResult = FetchOutcome.resp s (BodyOutcome.parsed j))
    (hok : isOk s = true)
    (hcount : extractCount j ≠ JsVal.null)
    (hfail : truthy (callIot env.iotResult).1 = false) :
    (runClick b env ui0).exit = RunExit.completed ∧
    (runClick b env ui0).ui.disabled = false ∧
    (runClick b env ui0).ui.thumbsRefreshed = true ∧
    (runClick b env ui0).ui.iot = some IotRender.failed ∧
    (runClick b env ui0).ui.status = StatusMsg.detectionCompleted ∧
    (runClick b env ui0).ui.meta
      = (if b.hasMeta = true then some (extractCount j, extractRisk j) else ui0.meta) ∧
    (runClick b env ui0).ui.annotated
      = (if b.hasAnnotated = true then
          (if truthy (extractOutImg j) = true then some (extractOutImg j) else none)
        else ui0.annotated) := by
  have hfm : fileMissing b = false := by simp [fileMissing, hfi, hfs]
  have hj : isNull j = false := isNull_eq_false_of_count j hcount
  have hnc : isNull (extractCount j) = false := (isNull_false_iff _).mpr hcount
  have hc : (!(isNull (extractCount j)) && b.hasIot) = true := by simp [hnc, hiot]
  simp [runClick, runDetect, runPresent, uiPre, presentUI, iotRenderOf, hfm, hdet, hok, hj,
    hc, hfail]

/-- Witness for C7: detection succeeds with count 12, the sensor fetch is
rejected; the run completes with detection shown and only the sensor slot
failed. -/
theorem c7_sensor_failure_contained_witness :
    (runClick bFull envIotDown uiInit).exit = RunExit.completed ∧
    (runClick bFull envIotDown uiInit).ui.iot = some IotRender.failed ∧
    (runClick bFull envIotDown uiInit).ui.status = StatusMsg.detectionCompleted ∧
    (runClick bFull envIotDown uiInit).ui.disabled = false := by
  have h := c7_sensor_failure_contained bFull envIotDown uiInit 200 jGood rfl rfl rfl rfl rfl
    (fun hx => JsVal.noConfusion hx) rfl
  exact ⟨h.1, h.2.2.2.1, h.2.2.2.2.1, h.2.1⟩

theorem callIot_failed_null (f : FetchOutcome) (h : (callIot f).2 ≠ IotLog.silent) :
    (callIot f).1 = JsVal.null := by
  cases f with
  | netError => rfl
  | resp s body =>
    cases hok : isOk s with
    | false => simp [callIot, hok]
    | true => cases body <;> simp_all [callIot]

/-- C9: the sensor client classes its failures the same three ways as the
detection client — rejected fetch, non-success status carrying the code,
and unparseable body — producing pairwise distinct console outcomes while
returning null in each case, and every such failure is non-fatal: the run
still completes with the trigger re-enabled and detection results kept. -/
theorem c9_sensor_failure_classes (s t u : Nat) (body : BodyOutcome)
    (hs : isOk s = false) (ht : isOk t = true)
    (b : Binding) (env : RunEnv) (ui0 : UIState) (j : JsVal)
    (hfi : b.hasFileInput = true) (hfs : b.fileSelected = true) (hiot : b.hasIot = true)
    (hdet : env.detectResult = FetchOutcome.resp u (BodyOutcome.parsed j))
    (hok : isOk u = true) (hcount : extractCount j ≠ JsVal.null)
    (hfail : (callIot env.iotResult).2 ≠ IotLog.silent) :
    (callIot FetchOutcome.netError
        = (JsVal.null, IotLog.errorCaught JsErr.fetchFailed) ∧
      callIot (FetchOutcome.resp s body) = (JsVal.null, IotLog.warnNonOk s) ∧
      callIot (FetchOutcome.resp t BodyOutcome.notJson)
        = (JsVal.null, IotLog.errorCaught JsErr.jsonParseFailed) ∧
      IotLog.errorCaught JsErr.fetchFailed ≠ IotLog.warnNonOk s ∧
      IotLog.warnNonOk s ≠ IotLog.errorCaught JsErr.jsonParseFailed ∧
      IotLog.errorCaught JsErr.fetchFailed ≠ IotLog.errorCaught JsErr.jsonParseFailed) ∧
    ((runClick b env ui0).exit = RunExit.completed ∧
      (runClick b env ui0).ui.disabled = false ∧
      (runClick b env ui0).ui.status = StatusMsg.detectionCompleted ∧
      (runClick b env ui0).ui.iot = some IotRender.failed) := by
  have hnull := callIot_failed_null env.iotResult hfail
  have hfalsy : truthy (callIot env.iotResult).1 = false := by rw [hnull]; rfl
  have hfm : fileMissing b = false := by simp [fileMissing, hfi, hfs]
  have hj : isNull j = false := isNull_eq_false_of_count j hcount
  have hnc : isNull (extractCount j) = false := (isNull_false_iff _).mpr hcount
  have hc : (!(isNull (extractCount j)) && b.hasIot) = true := by simp [hnc, hiot]
  refine ⟨⟨rfl, by simp [callIot, hs], by simp [callIot, ht], by simp, by simp, by simp⟩, ?_⟩
  simp [runClick, runDetect, runPresent, uiPre, presentUI, iotRenderOf, hfm, hdet, hok, hj,
    hc, hfalsy]

/-- Witness for C9: the sensor endpoint answers 500; the run completes with
the sensor slot failed and the trigger re-enabled. -/
theorem c9_sensor_failure_classes_witness :
    (runClick bFull envIot500 uiInit).exit = RunExit.completed ∧
    (runClick bFull envIot500 uiInit).ui.iot = some IotRender.failed ∧
    (runClick bFull envIot500 uiInit).ui.disabled = false := by
  have h := c9_sensor_failure_classes 500 250 200 BodyOutcome.textError rfl rfl bFull
    envIot500 uiInit jGood rfl rfl rfl rfl rfl (fun hx => JsVal.noConfusion hx)
    (fun hx => IotLog.noConfusion hx)
  exact ⟨h.2.1, h.2.2.2.2, h.2.2.1⟩


/-- C6: within one run the sensor request is issued if and only if the
detection response was successfully parsed with a non-null extracted
vehicle count and a sensor-output slot exists in the binding, and any
sensor request occurs only after the detection response was fully parsed
(it is the last of the three ordered events). -/
theorem c6_sensor_iff_count_and_slot (b : Binding) (env : RunEnv) (ui0 : UIState) :
    ((∃ d, NetEvent.iotRequest d ∈ (runClick b env ui0).events) ↔
      (b.hasFileInput = true ∧ b.fileSelected = true ∧ b.hasIot = true ∧
        ∃ j, detectSuccessJson env = some j ∧ extractCount j ≠ JsVal.null)) ∧
    (∀ d, NetEvent.iotRequest d ∈ (runClick b env ui0).events →
      (runClick b env ui0).events
        = [NetEvent.detectRequest, NetEvent.detectParsed, NetEvent.iotRequest d]) := by
  cases hfm : fileMissing b with
  | true =>
    have hev : (runClick b env ui0).events = [] := by simp [runClick, hfm]
    rw [hev]
    refine ⟨⟨?_, ?_⟩, ?_⟩
    · rintro ⟨d, hd⟩
      simp at hd
    · rintro ⟨h1, h2, -⟩
      simp [fileMissing, h1, h2] at hfm
    · intro d hd
      simp at hd
  | false =>
    have hfile : b.hasFileInput = true ∧ b.fileSelected = true := by
      simpa [fileMissing] using hfm
    obtain ⟨hfi, hfs⟩ := hfile
    have hfm2 : fileMissing b = false := by simp [fileMissing, hfi, hfs]
    cases hdet : env.detectResult with
    | netError =>
      have hev : (runClick b env ui0).events = [NetEvent.detectRequest] := by
        simp [runClick, runDetect, errorResult, hfm2, hdet]
      have hds : detectSuccessJson env = none := by simp [detectSuccessJson, hdet]
      rw [hev]
      refine ⟨⟨?_, ?_⟩, ?_⟩
      · rintro ⟨d, hd⟩
        simp at hd
      · rintro ⟨-, -, -, j, hj2, -⟩
        rw [hds] at hj2
        exact Option.noConfusion hj2
      · intro d hd
        simp at hd
    | resp s body =>
      cases hok : isOk s with
      | false =>
        have hev : (runClick b env ui0).events = [NetEvent.detectRequest] := by
          cases body <;> simp [runClick, runDetect, errorResult, hfm2, hdet, hok]
        have hds : detectSuccessJson env = none := by
          cases body <;> simp [detectSuccessJson, hdet, hok]
        rw [hev]
        refine ⟨⟨?_, ?_⟩, ?_⟩
        · rintro ⟨d, hd⟩
          simp at hd
        · rintro ⟨-, -, -, j, hj2, -⟩
          rw [hds] at hj2
          exact Option.noConfusion hj2
        · intro d hd
          simp at hd
      | true =>
        cases body with
        | textError =>
          have hev : (runClick b env ui0).events = [NetEvent.detectRequest] := by
            simp [runClick, runDetect, errorResult, hfm2, hdet, hok]
          have hds : detectSuccessJson env = none := by simp [detectSuccessJson, hdet]
          rw [hev]
          refine ⟨⟨?_, ?_⟩, ?_⟩
          · rintro ⟨d, hd⟩
            simp at hd
          · rintro ⟨-, -, -, j, hj2, -⟩
            rw [hds] at hj2
            exact Option.noConfusion hj2
          · intro d hd
            simp at hd
        | notJson =>
          have hev : (runClick b env ui0).events = [NetEvent.detectRequest] := by
            simp [runClick, runDetect, errorResult, hfm2, hdet, hok]
          have hds : detectSuccessJson env = none := by simp [detectSuccessJson, hdet]
          rw [hev]
          refine ⟨⟨?_, ?_⟩, ?_⟩
          · rintro ⟨d, hd⟩
            simp at hd
          · rintro ⟨-, -, -, j, hj2, -⟩
            rw [hds] at hj2
            exact Option.noConfusion hj2
          · intro d hd
            simp at hd
        | parsed j =>
          have hds : detectSuccessJson env = some j := by simp [detectSuccessJson, hdet, hok]
          cases hj : isNull j with
          | true =>
            have hjn : j = JsVal.null := (isNull_true_iff j).mp hj
            have hev : (runClick b env ui0).events
                = [NetEvent.detectRequest, NetEvent.detectParsed] := by
              simp [runClick, runDetect, runPresent, hfm2, hdet, hok, hj]
            rw [hev]
            refine ⟨⟨?_, ?_⟩, ?_⟩
            · rintro ⟨d, hd⟩
              simp at hd
            · rintro ⟨-, -, -, j2, hj2, hc2⟩
              rw [hds] at hj2
              injection hj2 with hjj
              subst hjj
              exact (hc2 (by rw [hjn]; exact extractCount_null)).elim
            · intro d hd
              simp at hd
          | false =>
            cases hc : (!(isNull (extractCount j)) && b.hasIot) with
            | false =>
              have hev : (runClick b env ui0).events
                  = [NetEvent.detectRequest, NetEvent.detectParsed] := by
                simp [runClick, runDetect, runPresent, hfm2, hdet, hok, hj, hc]
              rw [hev]
              refine ⟨⟨?_, ?_⟩, ?_⟩
              · rintro ⟨d, hd⟩
                simp at hd
              · rintro ⟨-, -, hiot2, j2, hj2, hc2⟩
                rw [hds] at hj2
                injection hj2 with hjj
                subst hjj
                have hne : isNull (extractCount j) = false := (isNull_false_iff _).mpr hc2
                simp [hne, hiot2] at hc
              · intro d hd
                simp at hd
            | true =>
              have hev : (runClick b env ui0).events
                  = [NetEvent.detectRequest, NetEvent.detectParsed,
                      NetEvent.iotRequest (jsDistance (extractCount j))] := by
                simp [runClick, runDetect, runPresent, hfm2, hdet, hok, hj, hc]
              rw [hev]
              simp only [Bool.and_eq_true, Bool.not_eq_true'] at hc
              refine ⟨⟨?_, ?_⟩, ?_⟩
              · rintro -
                exact ⟨hfi, hfs, hc.2, j, hds, (isNull_false_iff _).mp hc.1⟩
              · rintro -
                exact ⟨jsDistance (extractCount j), by simp⟩
              · intro d hd
                simp at hd
                rw [hd]

/-- Witness for C6: in the happy run the sensor request is issued and is
the last of the three events, after the parse of the detection response. -/
theorem c6_sensor_iff_count_and_slot_witness :
    (∃ d, NetEvent.iotRequest d ∈ (runClick bFull envHappy uiInit).events) ∧
    (runClick bFull envHappy uiInit).events
      = [NetEvent.detectRequest, NetEvent.detectParsed,
          NetEvent.iotRequest (jsDistance (extractCount jGood))] := by
  have h := c6_sensor_iff_count_and_slot bFull envHappy uiInit
  have hmem : NetEvent.iotRequest (jsDistance (extractCount jGood))
      ∈ (runClick bFull envHappy uiInit).events := by
    rw [show (runClick bFull envHappy uiInit).events
        = [NetEvent.detectRequest, NetEvent.detectParsed,
            NetEvent.iotRequest (jsDistance (extractCount jGood))] from rfl]
    simp
  exact ⟨h.1.mpr ⟨rfl, rfl, rfl, jGood, rfl, fun hx => JsVal.noConfusion hx⟩,
    h.2 (jsDistance (extractCount jGood)) hmem⟩


end TivaanVision
